/-
  Verification of the subformer-python client library.

  Shallow embedding of `src/subformer/types.py`, `src/subformer/exceptions.py`
  and `src/subformer/client.py`.  JSON values are modelled by an inductive
  `Json` type (JSON parsing itself is delegated to an external library by the
  source, so a response carries its parse outcome).  Python floats are
  modelled as rationals, Python `None` and JSON `null` are both `Json.null`
  (they are the same object in Python), and pydantic validation/serialization
  of the declared models is modelled in canonical JSON mode (exact wire types;
  pydantic's lax coercions of off-type values are not exercised by any claim).
  Timestamps are modelled as canonical UTC ISO-8601 strings.
-/
import Mathlib

namespace Subformer

/-- A JSON value.  Objects are ordered association lists, mirroring the
    parsed `dict`s the source manipulates. -/
inductive Json where
  | null
  | bool (b : Bool)
  | num (q : ℚ)
  | str (s : String)
  | arr (elems : List Json)
  | obj (fields : List (String × Json))

/-- Models `dict.get(key)` on a JSON object: the value at the first occurrence of
    `key`, or `none`.  Non-objects have no fields. -/
def Json.getField : Json → String → Option Json
  | .obj fs, k => fs.lookup k
  | _, _ => none

/-- Whether the value is a JSON object (a Python `dict` after parsing). -/
def Json.isObj : Json → Bool
  | .obj _ => true
  | _ => false

/-! ### Enumerations (`types.py`) -/

/-- Enum `JobState` — job execution state (`types.py`). -/
inductive JobState where
  | QUEUED | ACTIVE | COMPLETED | FAILED | CANCELLED
deriving DecidableEq

/-- Wire string of a `JobState` member (its `.value` in the source). -/
def JobState.value : JobState → String
  | .QUEUED => "queued"
  | .ACTIVE => "active"
  | .COMPLETED => "completed"
  | .FAILED => "failed"
  | .CANCELLED => "cancelled"

/-- Inverse of `JobState.value`: the member whose wire string is `s`, if any
    (pydantic enum validation accepts exactly these strings). -/
def JobState.fromWire (s : String) : Option JobState :=
  if s = "queued" then some .QUEUED
  else if s = "active" then some .ACTIVE
  else if s = "completed" then some .COMPLETED
  else if s = "failed" then some .FAILED
  else if s = "cancelled" then some .CANCELLED
  else none

/-- Enum `JobType` — type of background job (`types.py`). -/
inductive JobType where
  | VIDEO_DUBBING | VOICE_CLONING | VOICE_SYNTHESIS | DUB_STUDIO_RENDER
deriving DecidableEq

/-- Wire string of a `JobType` member. -/
def JobType.value : JobType → String
  | .VIDEO_DUBBING => "video-dubbing"
  | .VOICE_CLONING => "voice-cloning"
  | .VOICE_SYNTHESIS => "voice-synthesis"
  | .DUB_STUDIO_RENDER => "dub-studio-render-video"

/-- Inverse of `JobType.value`. -/
def JobType.fromWire (s : String) : Option JobType :=
  if s = "video-dubbing" then some .VIDEO_DUBBING
  else if s = "voice-cloning" then some .VOICE_CLONING
  else if s = "voice-synthesis" then some .VOICE_SYNTHESIS
  else if s = "dub-studio-render-video" then some .DUB_STUDIO_RENDER
  else none

/-- Enum `DubSource` — source type for dubbing jobs (`types.py`). -/
inductive DubSource where
  | YOUTUBE | TIKTOK | INSTAGRAM | FACEBOOK | X | URL
deriving DecidableEq

/-- Wire string of a `DubSource` member. -/
def DubSource.value : DubSource → String
  | .YOUTUBE => "youtube"
  | .TIKTOK => "tiktok"
  | .INSTAGRAM => "instagram"
  | .FACEBOOK => "facebook"
  | .X => "x"
  | .URL => "url"

/-- Enum `Language` — supported languages for dubbing (`types.py`). -/
inductive Language where
  | AFRIKAANS | ARABIC | AZERBAIJANI | BELARUSIAN | BULGARIAN | BENGALI
  | BOSNIAN | CATALAN | CZECH | WELSH | DANISH | GERMAN | GREEK | ENGLISH
  | SPANISH | ESTONIAN | PERSIAN | FINNISH | FILIPINO | FRENCH | GALICIAN
  | GUJARATI | HEBREW | HINDI | CROATIAN | HUNGARIAN | ARMENIAN | INDONESIAN
  | ICELANDIC | ITALIAN | JAPANESE | JAVANESE | GEORGIAN | KAZAKH | KHMER
  | KANNADA | KOREAN | LATIN | LITHUANIAN | LATVIAN | MACEDONIAN | MALAYALAM
  | MONGOLIAN | MARATHI | MALAY | MALTESE | BURMESE | DUTCH | NORWEGIAN
  | PUNJABI | POLISH | PORTUGUESE | ROMANIAN | RUSSIAN | SLOVAK | SLOVENIAN
  | ALBANIAN | SERBIAN | SWEDISH | SWAHILI | TAMIL | TELUGU | THAI | TAGALOG
  | TURKISH | UKRAINIAN | URDU | UZBEK | VIETNAMESE | CHINESE_SIMPLIFIED
  | CHINESE_TRADITIONAL
deriving DecidableEq

/-- Wire string of a `Language` member. -/
def Language.value : Language → String
  | .AFRIKAANS => "af-ZA"
  | .ARABIC => "ar-SA"
  | .AZERBAIJANI => "az-AZ"
  | .BELARUSIAN => "be-BY"
  | .BULGARIAN => "bg-BG"
  | .BENGALI => "bn-IN"
  | .BOSNIAN => "bs-BA"
  | .CATALAN => "ca-ES"
  | .CZECH => "cs-CZ"
  | .WELSH => "cy-GB"
  | .DANISH => "da-DK"
  | .GERMAN => "de-DE"
  | .GREEK => "el-GR"
  | .ENGLISH => "en-US"
  | .SPANISH => "es-ES"
  | .ESTONIAN => "et-EE"
  | .PERSIAN => "fa-IR"
  | .FINNISH => "fi-FI"
  | .FILIPINO => "fil-PH"
  | .FRENCH => "fr-FR"
  | .GALICIAN => "gl-ES"
  | .GUJARATI => "gu-IN"
  | .HEBREW => "he-IL"
  | .HINDI => "hi-IN"
  | .CROATIAN => "hr-HR"
  | .HUNGARIAN => "hu-HU"
  | .ARMENIAN => "hy-AM"
  | .INDONESIAN => "id-ID"
  | .ICELANDIC => "is-IS"
  | .ITALIAN => "it-IT"
  | .JAPANESE => "ja-JP"
  | .JAVANESE => "jv-ID"
  | .GEORGIAN => "ka-GE"
  | .KAZAKH => "kk-KZ"
  | .KHMER => "km-KH"
  | .KANNADA => "kn-IN"
  | .KOREAN => "ko-KR"
  | .LATIN => "la-VA"
  | .LITHUANIAN => "lt-LT"
  | .LATVIAN => "lv-LV"
  | .MACEDONIAN => "mk-MK"
  | .MALAYALAM => "ml-IN"
  | .MONGOLIAN => "mn-MN"
  | .MARATHI => "mr-IN"
  | .MALAY => "ms-MY"
  | .MALTESE => "mt-MT"
  | .BURMESE => "my-MM"
  | .DUTCH => "nl-NL"
  | .NORWEGIAN => "no-NO"
  | .PUNJABI => "pa-IN"
  | .POLISH => "pl-PL"
  | .PORTUGUESE => "pt-BR"
  | .ROMANIAN => "ro-RO"
  | .RUSSIAN => "ru-RU"
  | .SLOVAK => "sk-SK"
  | .SLOVENIAN => "sl-SI"
  | .ALBANIAN => "sq-AL"
  | .SERBIAN => "sr-RS"
  | .SWEDISH => "sv-SE"
  | .SWAHILI => "sw-KE"
  | .TAMIL => "ta-IN"
  | .TELUGU => "te-IN"
  | .THAI => "th-TH"
  | .TAGALOG => "tl-PH"
  | .TURKISH => "tr-TR"
  | .UKRAINIAN => "uk-UA"
  | .URDU => "ur-PK"
  | .UZBEK => "uz-UZ"
  | .VIETNAMESE => "vi-VN"
  | .CHINESE_SIMPLIFIED => "zh-CN"
  | .CHINESE_TRADITIONAL => "zh-TW"

/-! ### Timestamps

The wire schema carries timestamps as strings; pydantic parses them into
`datetime` objects and serializes them back.  We model a timestamp as its
canonical UTC ISO-8601 text `YYYY-MM-DDTHH:MM:SSZ` (a structural check of the
digits and separators; calendar range checks are elided, they are irrelevant
to every claim). -/

/-- Structural check for a canonical UTC ISO-8601 timestamp string. -/
def isIsoDatetime (s : String) : Bool :=
  match s.toList with
  | [y1, y2, y3, y4, '-', m1, m2, '-', d1, d2, 'T',
     h1, h2, ':', n1, n2, ':', s1, s2, 'Z'] =>
      y1.isDigit && y2.isDigit && y3.isDigit && y4.isDigit &&
      m1.isDigit && m2.isDigit && d1.isDigit && d2.isDigit &&
      h1.isDigit && h2.isDigit && n1.isDigit && n2.isDigit &&
      s1.isDigit && s2.isDigit
  | _ => false

/-! ### Field decoders

Models of pydantic field validation for the field kinds appearing in
`types.py`, applied to the looked-up JSON value of a field (`none` when the
key is absent from the payload). -/

/-- Required `str` field. -/
def reqStr : Option Json → Except String String
  | some (.str s) => .ok s
  | _ => .error "expected a string"

/-- Required `bool` field. -/
def reqBool : Option Json → Except String Bool
  | some (.bool b) => .ok b
  | _ => .error "expected a boolean"

/-- Required `float` field. -/
def reqNum : Option Json → Except String ℚ
  | some (.num q) => .ok q
  | _ => .error "expected a number"

/-- Required `int` field. -/
def reqInt : Option Json → Except String ℤ
  | some (.num q) => if q.den = 1 then .ok q.num else .error "expected an integer"
  | _ => .error "expected an integer"

/-- Required `datetime` field (canonical timestamp string, kept as text). -/
def reqDatetime : Option Json → Except String String
  | some (.str s) => if isIsoDatetime s then .ok s else .error "expected a datetime"
  | _ => .error "expected a datetime"

/-- An `Optional[str]` field with default `None`: absent or `null` is `none`. -/
def optStr : Option Json → Except String (Option String)
  | none => .ok none
  | some .null => .ok none
  | some (.str s) => .ok (some s)
  | some _ => .error "expected a string or null"

/-- An `Optional[float]` field with default `None`. -/
def optNum : Option Json → Except String (Option ℚ)
  | none => .ok none
  | some .null => .ok none
  | some (.num q) => .ok (some q)
  | some _ => .error "expected a number or null"

/-- An `Optional[datetime]` field with default `None`. -/
def optDatetime : Option Json → Except String (Option String)
  | none => .ok none
  | some .null => .ok none
  | some (.str s) => if isIsoDatetime s then .ok (some s) else .error "expected a datetime"
  | some _ => .error "expected a datetime or null"

/-- An `Optional[Any]` field with default `None`: any value passes through,
    `null` becomes Python `None`. -/
def optAny : Option Json → Except String (Option Json)
  | none => .ok none
  | some .null => .ok none
  | some v => .ok (some v)

/-- Required enum field: the wire string must name a member (unknown values
    fail validation, per pydantic enum handling). -/
def reqEnum {α : Type} (fromWire : String → Option α) : Option Json → Except String α
  | some (.str s) =>
      match fromWire s with
      | some a => .ok a
      | none => .error "not a member of the enumeration"
  | _ => .error "expected an enumeration wire string"

/-- Required `Literal["male", "female"]` field (`Voice.gender`). -/
def reqGender : Option Json → Except String String
  | some (.str s) =>
      if s = "male" ∨ s = "female" then .ok s
      else .error "not an allowed literal"
  | _ => .error "expected a literal string"

/-- Field lookup honouring `populate_by_name = True`: the wire alias is
    accepted first, then the Python field name. -/
def getKey (fs : List (String × Json)) (aliasKey fieldName : String) : Option Json :=
  (fs.lookup aliasKey).or (fs.lookup fieldName)

/-! ### Domain models (`types.py`)

Each pydantic model is a structure together with `model_validate` (payload →
value, failing with a `ValidationError`-class condition modelled as
`Except.error`) and `model_dump` (value → payload under the alias mapping,
JSON mode, all fields emitted in declaration order, absent optionals as
`null`). -/

/-- Model `JobProgress` — progress information for a job. -/
structure JobProgress where
  progress : ℚ
  message : Option String
  step : Option String
deriving DecidableEq

/-- pydantic validation of `JobProgress` (no aliases; `progress` is
    constrained `ge=0, le=100`). -/
def JobProgress.model_validate (j : Json) : Except String JobProgress :=
  match j with
  | .obj fs => do
      let p ← reqNum (fs.lookup "progress")
      if 0 ≤ p ∧ p ≤ 100 then
        let m ← optStr (fs.lookup "message")
        let st ← optStr (fs.lookup "step")
        .ok { progress := p, message := m, step := st }
      else .error "progress out of range"
  | _ => .error "expected an object"

/-- pydantic serialization of `JobProgress`. -/
def JobProgress.model_dump (p : JobProgress) : Json :=
  .obj [("progress", .num p.progress),
        ("message", (p.message.map .str).getD .null),
        ("step", (p.step.map .str).getD .null)]

/-- Model `JobMetadata` — metadata for a job (aliased camelCase keys,
    `populate_by_name = True`). -/
structure JobMetadata where
  title : Option String
  thumbnail_url : Option String
  duration : Option ℚ
  source_url : Option String
  source_type : Option String
  original_language : Option String
deriving DecidableEq

/-- pydantic validation of `JobMetadata`. -/
def JobMetadata.model_validate (j : Json) : Except String JobMetadata :=
  match j with
  | .obj fs => do
      let title ← optStr (fs.lookup "title")
      let thumb ← optStr (getKey fs "thumbnailUrl" "thumbnail_url")
      let dur ← optNum (fs.lookup "duration")
      let su ← optStr (getKey fs "sourceUrl" "source_url")
      let st ← optStr (getKey fs "sourceType" "source_type")
      let ol ← optStr (getKey fs "originalLanguage" "original_language")
      .ok { title := title, thumbnail_url := thumb, duration := dur,
            source_url := su, source_type := st, original_language := ol }
  | _ => .error "expected an object"

/-- pydantic serialization of `JobMetadata` (by alias). -/
def JobMetadata.model_dump (m : JobMetadata) : Json :=
  .obj [("title", (m.title.map .str).getD .null),
        ("thumbnailUrl", (m.thumbnail_url.map .str).getD .null),
        ("duration", (m.duration.map .num).getD .null),
        ("sourceUrl", (m.source_url.map .str).getD .null),
        ("sourceType", (m.source_type.map .str).getD .null),
        ("originalLanguage", (m.original_language.map .str).getD .null)]

/-- Model `Job` — a background job (`types.py`). -/
structure Job where
  id : String
  type : JobType
  user_id : String
  state : JobState
  input : Option Json
  output : Option Json
  metadata : Option JobMetadata
  created_at : String
  progress : Option JobProgress
  processed_on : Option String
  finished_on : Option String
  credit_used : Option ℚ

/-- Predicate `Job.is_complete`: the job has completed (successfully or not) —
    `self.state in (COMPLETED, FAILED, CANCELLED)`. -/
def Job.is_complete (j : Job) : Bool :=
  [JobState.COMPLETED, JobState.FAILED, JobState.CANCELLED].contains j.state

/-- Predicate `Job.is_successful`: the job completed successfully —
    `self.state == JobState.COMPLETED`. -/
def Job.is_successful (j : Job) : Bool :=
  j.state = JobState.COMPLETED

/-- An `Optional[JobMetadata]` field decoder. -/
def optMetadata : Option Json → Except String (Option JobMetadata)
  | none => .ok none
  | some .null => .ok none
  | some v => (JobMetadata.model_validate v).map some

/-- An `Optional[JobProgress]` field decoder. -/
def optProgress : Option Json → Except String (Option JobProgress)
  | none => .ok none
  | some .null => .ok none
  | some v => (JobProgress.model_validate v).map some

/-- pydantic validation of `Job` (aliased keys, `populate_by_name = True`). -/
def Job.model_validate (j : Json) : Except String Job :=
  match j with
  | .obj fs => do
      let id ← reqStr (fs.lookup "id")
      let ty ← reqEnum JobType.fromWire (fs.lookup "type")
      let uid ← reqStr (getKey fs "userId" "user_id")
      let st ← reqEnum JobState.fromWire (fs.lookup "state")
      let inp ← optAny (fs.lookup "input")
      let out ← optAny (fs.lookup "output")
      let md ← optMetadata (fs.lookup "metadata")
      let ca ← reqDatetime (getKey fs "createdAt" "created_at")
      let pr ← optProgress (fs.lookup "progress")
      let po ← optDatetime (getKey fs "processedOn" "processed_on")
      let fo ← optDatetime (getKey fs "finishedOn" "finished_on")
      let cu ← optNum (getKey fs "creditUsed" "credit_used")
      .ok { id := id, type := ty, user_id := uid, state := st, input := inp,
            output := out, metadata := md, created_at := ca, progress := pr,
            processed_on := po, finished_on := fo, credit_used := cu }
  | _ => .error "expected an object"

/-- pydantic serialization of `Job` (by alias). -/
def Job.model_dump (j : Job) : Json :=
  .obj [("id", .str j.id),
        ("type", .str j.type.value),
        ("userId", .str j.user_id),
        ("state", .str j.state.value),
        ("input", j.input.getD .null),
        ("output", j.output.getD .null),
        ("metadata", (j.metadata.map JobMetadata.model_dump).getD .null),
        ("createdAt", .str j.created_at),
        ("progress", (j.progress.map JobProgress.model_dump).getD .null),
        ("processedOn", (j.processed_on.map .str).getD .null),
        ("finishedOn", (j.finished_on.map .str).getD .null),
        ("creditUsed", (j.credit_used.map .num).getD .null)]

/-- A `Job` value is canonical when its timestamp texts are canonical, its
    progress satisfies the declared `ge=0, le=100` bound and its opaque
    payloads are not the bare `null` value (which deserializes to `None`).
    Canonical values are exactly the images of valid wire payloads. -/
def Job.Valid (j : Job) : Bool :=
  isIsoDatetime j.created_at &&
  (match j.processed_on with | none => true | some s => isIsoDatetime s) &&
  (match j.finished_on with | none => true | some s => isIsoDatetime s) &&
  (match j.progress with | none => true | some p => decide (0 ≤ p.progress ∧ p.progress ≤ 100)) &&
  (match j.input with | some .null => false | _ => true) &&
  (match j.output with | some .null => false | _ => true)

/-- Model `Voice` — a saved voice in the voice library. -/
structure Voice where
  id : String
  name : String
  audio_url : String
  gender : String
  duration : ℚ
  created_at : String
deriving DecidableEq

/-- pydantic validation of `Voice` (`gender` is `Literal["male", "female"]`). -/
def Voice.model_validate (j : Json) : Except String Voice :=
  match j with
  | .obj fs => do
      let id ← reqStr (fs.lookup "id")
      let nm ← reqStr (fs.lookup "name")
      let au ← reqStr (getKey fs "audioUrl" "audio_url")
      let g ← reqGender (fs.lookup "gender")
      let du ← reqNum (fs.lookup "duration")
      let ca ← reqDatetime (getKey fs "createdAt" "created_at")
      .ok { id := id, name := nm, audio_url := au, gender := g,
            duration := du, created_at := ca }
  | _ => .error "expected an object"

/-- pydantic serialization of `Voice` (by alias). -/
def Voice.model_dump (v : Voice) : Json :=
  .obj [("id", .str v.id),
        ("name", .str v.name),
        ("audioUrl", .str v.audio_url),
        ("gender", .str v.gender),
        ("duration", .num v.duration),
        ("createdAt", .str v.created_at)]

/-- Canonical `Voice` values: timestamp text canonical, gender in the
    literal set. -/
def Voice.Valid (v : Voice) : Bool :=
  isIsoDatetime v.created_at && (v.gender = "male" ∨ v.gender = "female")

/-- Model `User` — user profile information. -/
structure User where
  id : String
  name : Option String
  email : String
  email_verified : Bool
  image : Option String
  preferred_target_language : Option String
deriving DecidableEq

/-- pydantic validation of `User`. -/
def User.model_validate (j : Json) : Except String User :=
  match j with
  | .obj fs => do
      let id ← reqStr (fs.lookup "id")
      let nm ← optStr (fs.lookup "name")
      let em ← reqStr (fs.lookup "email")
      let ev ← reqBool (getKey fs "emailVerified" "email_verified")
      let im ← optStr (fs.lookup "image")
      let pl ← optStr (getKey fs "preferredTargetLanguage" "preferred_target_language")
      .ok { id := id, name := nm, email := em, email_verified := ev,
            image := im, preferred_target_language := pl }
  | _ => .error "expected an object"

/-- pydantic serialization of `User` (by alias). -/
def User.model_dump (u : User) : Json :=
  .obj [("id", .str u.id),
        ("name", (u.name.map .str).getD .null),
        ("email", .str u.email),
        ("emailVerified", .bool u.email_verified),
        ("image", (u.image.map .str).getD .null),
        ("preferredTargetLanguage", (u.preferred_target_language.map .str).getD .null)]

/-- Model `UsageData` — billing usage data for the active subscription. -/
structure UsageData where
  used_credits : ℚ
  plan_credits : ℚ
  total_events : ℤ
  current_plan : String
  period_start : String
  period_end : String
deriving DecidableEq

/-- pydantic validation of `UsageData`. -/
def UsageData.model_validate (j : Json) : Except String UsageData :=
  match j with
  | .obj fs => do
      let uc ← reqNum (getKey fs "usedCredits" "used_credits")
      let pc ← reqNum (getKey fs "planCredits" "plan_credits")
      let te ← reqInt (getKey fs "totalEvents" "total_events")
      let cp ← reqStr (getKey fs "currentPlan" "current_plan")
      let ps ← reqDatetime (getKey fs "periodStart" "period_start")
      let pe ← reqDatetime (getKey fs "periodEnd" "period_end")
      .ok { used_credits := uc, plan_credits := pc, total_events := te,
            current_plan := cp, period_start := ps, period_end := pe }
  | _ => .error "expected an object"

/-- pydantic serialization of `UsageData` (by alias). -/
def UsageData.model_dump (u : UsageData) : Json :=
  .obj [("usedCredits", .num u.used_credits),
        ("planCredits", .num u.plan_credits),
        ("totalEvents", .num (u.total_events : ℚ)),
        ("currentPlan", .str u.current_plan),
        ("periodStart", .str u.period_start),
        ("periodEnd", .str u.period_end)]

/-- Canonical `UsageData` values: both period timestamps canonical. -/
def UsageData.Valid (u : UsageData) : Bool :=
  isIsoDatetime u.period_start && isIsoDatetime u.period_end

/-! ### Error taxonomy (`exceptions.py`)

The five exception classes are one structure tagged by its class.  Messages
may be any JSON value (`dict.get` can hand back a non-string), codes carried
from the wire likewise. -/

/-- Which exception class a raised `SubformerError` belongs to. -/
inductive ErrorKind where
  | base | authentication | notFound | rateLimit | validation
deriving DecidableEq

/-- Type `SubformerError` and its four subclasses: message, optional HTTP status
    code, optional machine code, optional structured detail payload. -/
structure SubformerError where
  kind : ErrorKind
  message : Json
  status_code : Option ℕ
  code : Option Json
  data : Option Json

/-- Constructor `SubformerError(message, status_code=..., code=..., data=...)`. -/
def SubformerError.base (message : Json) (status_code : Option ℕ)
    (code : Option Json) (data : Option Json) : SubformerError :=
  { kind := .base, message := message, status_code := status_code,
    code := code, data := data }

/-- Constructor `AuthenticationError(message)`:
    `super().__init__(message, status_code=401, code="UNAUTHORIZED")`. -/
def authenticationError (message : Json) : SubformerError :=
  { kind := .authentication, message := message, status_code := some 401,
    code := some (.str "UNAUTHORIZED"), data := none }

/-- Constructor `NotFoundError(message)`: status 404, code `NOT_FOUND`. -/
def notFoundError (message : Json) : SubformerError :=
  { kind := .notFound, message := message, status_code := some 404,
    code := some (.str "NOT_FOUND"), data := none }

/-- Constructor `RateLimitError(message)`: status 429, code `RATE_LIMIT_EXCEEDED`. -/
def rateLimitError (message : Json) : SubformerError :=
  { kind := .rateLimit, message := message, status_code := some 429,
    code := some (.str "RATE_LIMIT_EXCEEDED"), data := none }

/-- Constructor `ValidationError(message, data=...)`: status 400, code `BAD_REQUEST`. -/
def validationError (message : Json) (data : Option Json) : SubformerError :=
  { kind := .validation, message := message, status_code := some 400,
    code := some (.str "BAD_REQUEST"), data := data }

/-! ### Dispatcher error handling (`client.py`, `BaseClient._handle_error`) -/

/-- An HTTP response as `_handle_error` observes it: the status code, the raw
    body text, and the outcome of `response.json()` — `none` when the body is
    not JSON (the call raises), `some v` when it parses to `v`.  JSON parsing
    itself is delegated to the HTTP library by the source. -/
structure Response where
  status_code : ℕ
  text : String
  json : Option Json

/-- What a call to `_handle_error` does: raise one of the taxonomy errors, or
    itself crash with a Python `AttributeError` (escaping the `try` block). -/
inductive HandleOutcome where
  | raised (e : SubformerError)
  | crashed

/-- Models that `dict.get(k)` returns the Python `None` object both when `k` is absent
    and when it maps to JSON `null`; collapse the two. -/
def normNull : Option Json → Option Json
  | some .null => none
  | x => x

/-- Embeds `BaseClient._handle_error(response)`.  The `try` block computes `message`
    (the body's `message` field, falling back to the raw text) and `code`;
    `data.get(...)` on a successfully parsed non-`dict` body raises
    `AttributeError`, which the `except` catches.  Classification is strictly
    by status code; in the 400 branch the source re-reads `data.get("data")`
    guarded only by `"data" in locals()`, so a parsed non-`dict` body crashes
    there (`data` is bound but has no `.get`). -/
def handle_error (r : Response) : HandleOutcome :=
  let mc : Json × Option Json :=
    match r.json with
    | some (.obj fs) => ((fs.lookup "message").getD (.str r.text), normNull (fs.lookup "code"))
    | _ => (.str r.text, none)
  let message := mc.1
  let code := mc.2
  if r.status_code = 401 then .raised (authenticationError message)
  else if r.status_code = 404 then .raised (notFoundError message)
  else if r.status_code = 429 then .raised (rateLimitError message)
  else if r.status_code = 400 then
    match r.json with
    | some (.obj fs) => .raised (validationError message (normNull (fs.lookup "data")))
    | some _ => .crashed
    | none => .raised (validationError message none)
  else .raised (SubformerError.base message (some r.status_code) code none)

/-! ### Request building (`client.py` facades)

Both facades build identical requests; each builder below embeds the
synchronous method and its line-identical asynchronous twin. -/

/-- One HTTP request as handed to `_request`. -/
structure Request where
  method : String
  path : String
  body : Option Json
  params : List (String × Json)

/-- The wire string of an enum-or-string source argument (spec §4.4:
    enum-or-string arguments normalize to the wire string). -/
def wireSource : DubSource ⊕ String → String
  | .inl e => e.value
  | .inr s => s

/-- The wire string of an enum-or-string language argument. -/
def wireLanguage : Language ⊕ String → String
  | .inl e => e.value
  | .inr s => s

/-- Embeds `Subformer.dub` / `AsyncSubformer.dub`, request-building half: normalize
    enum arguments to their `.value`, then build the `/dub` POST body. -/
def dub_request (source : DubSource ⊕ String) (url : String)
    (language : Language ⊕ String) (disable_watermark : Bool) : Request :=
  let source := match source with
    | .inl s => s.value
    | .inr s => s
  let language := match language with
    | .inl l => l.value
    | .inr l => l
  { method := "POST", path := "/dub",
    body := some (.obj [("type", .str source),
                        ("url", .str url),
                        ("toLanguage", .str language),
                        ("disableWatermark", .bool disable_watermark)]),
    params := [] }

/-- Embeds `Subformer.dub`, response-handling half:
    `return Job.model_validate(data["job"])` — a missing `job` key is a
    Python `KeyError`/`TypeError`, modelled as an error. -/
def dub_result (data : Json) : Except String Job :=
  match data.getField "job" with
  | some j => Job.model_validate j
  | none => .error "KeyError: job"

/-- The `TargetVoice` union (`Union[PresetVoice, UploadedVoice]`); the `mode`
    literal of each pydantic variant is fixed by its type. -/
inductive TargetVoice where
  | preset (preset_voice_id : String)
  | uploaded (target_audio_url : String)

/-- Embeds `Subformer.clone_voice` / `AsyncSubformer.clone_voice`,
    request-building half: flatten the target-voice union by
    `isinstance(target_voice, PresetVoice)` and POST `/voice/clone`. -/
def clone_voice_request (source_audio_url : String) (target_voice : TargetVoice) : Request :=
  let voice_data := match target_voice with
    | .preset id => Json.obj [("mode", .str "preset"), ("presetVoiceId", .str id)]
    | .uploaded u => Json.obj [("mode", .str "upload"), ("targetAudioUrl", .str u)]
  { method := "POST", path := "/voice/clone",
    body := some (.obj [("sourceAudioUrl", .str source_audio_url),
                        ("targetVoice", voice_data)]),
    params := [] }

/-- Embeds `Subformer.synthesize_voice` / `AsyncSubformer.synthesize_voice`,
    request-building half (same union flattening, POST `/voice/synthesize`). -/
def synthesize_voice_request (text : String) (target_voice : TargetVoice) : Request :=
  let voice_data := match target_voice with
    | .preset id => Json.obj [("mode", .str "preset"), ("presetVoiceId", .str id)]
    | .uploaded u => Json.obj [("mode", .str "upload"), ("targetAudioUrl", .str u)]
  { method := "POST", path := "/voice/synthesize",
    body := some (.obj [("text", .str text),
                        ("targetVoice", voice_data)]),
    params := [] }

/-- The spec's wire shape for a target voice (§4.4: flattened into a
    `mode, presetVoiceId or targetAudioUrl` object by variant). -/
def specTargetVoice : TargetVoice → Json
  | .preset id => .obj [("mode", .str "preset"), ("presetVoiceId", .str id)]
  | .uploaded u => .obj [("mode", .str "upload"), ("targetAudioUrl", .str u)]

/-! ### `wait_for_job` (`client.py`)

`Subformer.wait_for_job` and `AsyncSubformer.wait_for_job` have
line-identical loop bodies (`time.sleep` vs `await asyncio.sleep`); both are
embedded by one function.  The environment supplies the job each successive
`get_job` call returns and the wall-clock elapsed time
(`time.time() - start_time`) observed at each timeout check; sleeping is
recorded, not simulated.  The loop itself is unbounded (`while True`), so the
embedding takes fuel and reports `running` when the fuel ends mid-loop. -/

/-- Environment of one `wait_for_job` call. -/
structure PollEnv where
  jobs : ℕ → Job
  clock : ℕ → ℚ

/-- Outcome of a fuel-bounded run of the polling loop: the job returned
    (with the number of polls made and total time slept), a raised
    `TimeoutError` (with the number of polls made), or still looping. -/
inductive WaitResult where
  | completed (job : Job) (polls : ℕ) (slept : ℚ)
  | timedOut (polls : ℕ)
  | running

/-- Embeds `if timeout and (time.time() - start_time) > timeout` — Python truthiness
    makes `None` and `0.0` both skip the check. -/
def timeoutTriggered (timeout : Option ℚ) (elapsed : ℚ) : Bool :=
  match timeout with
  | none => false
  | some t => !(t = 0 : Bool) && (t < elapsed)

/-- The `while True` body of `wait_for_job`, at absolute poll index `n` with
    `slept` time spent sleeping so far. -/
def waitAux (env : PollEnv) (poll_interval : ℚ) (timeout : Option ℚ) :
    ℕ → ℕ → ℚ → WaitResult
  | 0, _, _ => .running
  | fuel + 1, n, slept =>
      let job := env.jobs n
      if job.is_complete then .completed job (n + 1) slept
      else if timeoutTriggered timeout (env.clock n) then .timedOut (n + 1)
      else waitAux env poll_interval timeout fuel (n + 1) (slept + poll_interval)

/-- Embeds `wait_for_job(job_id, poll_interval=2.0, timeout=None)`, run for at most
    `fuel` polls. -/
def wait_for_job (env : PollEnv) (poll_interval : ℚ) (timeout : Option ℚ)
    (fuel : ℕ) : WaitResult :=
  waitAux env poll_interval timeout fuel 0 0

/-! ### Concrete values used to exercise the embedding -/

/-- Whether a validation outcome is an error. -/
def isErr {α : Type} : Except String α → Bool
  | .error _ => true
  | .ok _ => false

/-- A queued (not complete) job. -/
def jobQueued : Job :=
  { id := "job-1", type := .VIDEO_DUBBING, user_id := "user-1",
    state := .QUEUED, input := none, output := none, metadata := none,
    created_at := "2024-01-01T00:00:00Z", progress := none,
    processed_on := none, finished_on := none, credit_used := none }

/-- A completed job. -/
def jobCompleted : Job :=
  { jobQueued with state := .COMPLETED }

/-- A clock reading `n + 1` at the n-th timeout check (tabulated so that
    concrete runs reduce definitionally). -/
def clockTable : ℕ → ℚ
  | 0 => 1
  | 1 => 2
  | 2 => 3
  | 3 => 4
  | 4 => 5
  | _ => 6

/-- A poll environment whose job never completes. -/
def envNever : PollEnv :=
  { jobs := fun _ => jobQueued, clock := clockTable }

/-- A poll environment whose job is complete on the first poll. -/
def envDone : PollEnv :=
  { jobs := fun _ => jobCompleted, clock := clockTable }

/-- A 401 response whose body is not JSON. -/
def respAuthMalformed : Response :=
  { status_code := 401, text := "oops", json := none }

/-- A 400 response whose body parses to a JSON string (not an object). -/
def resp400str : Response :=
  { status_code := 400, text := "\"x\"", json := some (.str "x") }

/-- A 400 response whose body parses to a JSON array (not an object). -/
def resp400arr : Response :=
  { status_code := 400, text := "[1]", json := some (.arr [.num 1]) }

/-- A 500 response whose body is not JSON. -/
def resp500 : Response :=
  { status_code := 500, text := "boom", json := none }

/-- A creation-endpoint response envelope with a `job` field. -/
def jobRespSample : Json := .obj [("job", .null)]

/-- A canonical `Voice` value. -/
def voiceSample : Voice :=
  { id := "v1", name := "alto", audio_url := "https://cdn/v1.mp3",
    gender := "male", duration := 1000, created_at := "2024-01-01T00:00:00Z" }

/-- A `User` value. -/
def userSample : User :=
  { id := "u1", name := none, email := "a@b.c", email_verified := true,
    image := none, preferred_target_language := none }

/-- A canonical `UsageData` value. -/
def usageSample : UsageData :=
  { used_credits := 1, plan_credits := 10, total_events := 3,
    current_plan := "pro", period_start := "2024-01-01T00:00:00Z",
    period_end := "2024-02-01T00:00:00Z" }

/-! ## Theorems -/

/-! ### Generic `Except` plumbing -/

@[simp] theorem ebind_ok {α β : Type} (a : α) (f : α → Except String β) :
    (Except.ok a >>= f) = f a := rfl

@[simp] theorem ebind_error {α β : Type} (e : String) (f : α → Except String β) :
    ((Except.error e : Except String α) >>= f) = Except.error e := rfl

/-- Inversion of a successful bind. -/
theorem bind_ok_inv {α β : Type} {x : Except String α} {f : α → Except String β}
    {b : β} (h : (x >>= f) = .ok b) : ∃ a, x = .ok a ∧ f a = .ok b := by
  cases x with
  | error e => simp at h
  | ok a => exact ⟨a, rfl, by simpa using h⟩

/-! ### Decoder evaluation on canonical wire values -/

@[simp] theorem reqStr_str (s : String) : reqStr (some (.str s)) = .ok s := rfl

@[simp] theorem reqBool_bool (b : Bool) : reqBool (some (.bool b)) = .ok b := rfl

@[simp] theorem reqNum_num (q : ℚ) : reqNum (some (.num q)) = .ok q := rfl

@[simp] theorem reqInt_intCast (z : ℤ) : reqInt (some (.num (z : ℚ))) = .ok z := by
  simp [reqInt, Rat.den_intCast, Rat.num_intCast]

@[simp] theorem reqDatetime_ok (s : String) (h : isIsoDatetime s = true) :
    reqDatetime (some (.str s)) = .ok s := by
  simp [reqDatetime, h]

@[simp] theorem optStr_enc (o : Option String) :
    optStr (some ((o.map Json.str).getD .null)) = .ok o := by
  cases o <;> rfl

@[simp] theorem optNum_enc (o : Option ℚ) :
    optNum (some ((o.map Json.num).getD .null)) = .ok o := by
  cases o <;> rfl

@[simp] theorem optDatetime_enc (o : Option String)
    (h : (match o with | none => true | some s => isIsoDatetime s) = true) :
    optDatetime (some ((o.map Json.str).getD .null)) = .ok o := by
  cases o <;> simp_all [optDatetime]

@[simp] theorem optAny_enc (o : Option Json)
    (h : (match o with | some .null => false | _ => true) = true) :
    optAny (some (o.getD .null)) = .ok o := by
  cases o with
  | none => rfl
  | some v => cases v <;> simp_all [optAny]

@[simp] theorem reqEnum_jobType (t : JobType) :
    reqEnum JobType.fromWire (some (.str t.value)) = .ok t := by
  cases t <;> rfl

@[simp] theorem reqEnum_jobState (s : JobState) :
    reqEnum JobState.fromWire (some (.str s.value)) = .ok s := by
  cases s <;> rfl

theorem reqGender_ok (g : String) (h : g = "male" ∨ g = "female") :
    reqGender (some (.str g)) = .ok g := by
  rcases h with h | h <;> subst h <;> rfl

/-! ### Round trips of the individual models -/

theorem jobMetadata_roundtrip (m : JobMetadata) :
    JobMetadata.model_validate (JobMetadata.model_dump m) = .ok m := by
  obtain ⟨t, th, d, su, st, ol⟩ := m
  simp [JobMetadata.model_validate, JobMetadata.model_dump, getKey,
    List.lookup, Option.or]

theorem jobProgress_roundtrip (p : JobProgress)
    (h : 0 ≤ p.progress ∧ p.progress ≤ 100) :
    JobProgress.model_validate (JobProgress.model_dump p) = .ok p := by
  obtain ⟨pr, m, s⟩ := p
  simp only [JobProgress.progress] at h
  simp [JobProgress.model_validate, JobProgress.model_dump, List.lookup, h.1, h.2]

@[simp] theorem optMetadata_enc (m : Option JobMetadata) :
    optMetadata (some ((m.map JobMetadata.model_dump).getD .null)) = .ok m := by
  cases m with
  | none => rfl
  | some mm =>
      have h1 : optMetadata (some ((Option.map JobMetadata.model_dump (some mm)).getD .null)) =
          (JobMetadata.model_validate (JobMetadata.model_dump mm)).map some := rfl
      rw [h1, jobMetadata_roundtrip mm]
      rfl

@[simp] theorem optProgress_enc (o : Option JobProgress)
    (h : (match o with
          | none => true
          | some p => decide (0 ≤ p.progress ∧ p.progress ≤ 100)) = true) :
    optProgress (some ((o.map JobProgress.model_dump).getD .null)) = .ok o := by
  cases o with
  | none => rfl
  | some p =>
      have h1 : optProgress (some ((Option.map JobProgress.model_dump (some p)).getD .null)) =
          (JobProgress.model_validate (JobProgress.model_dump p)).map some := rfl
      rw [h1, jobProgress_roundtrip p (of_decide_eq_true h)]
      rfl

theorem job_roundtrip (j : Job) (h : j.Valid = true) :
    Job.model_validate (Job.model_dump j) = .ok j := by
  obtain ⟨id, ty, uid, st, inp, out, md, ca, pr, po, fo, cu⟩ := j
  simp only [Job.Valid, Bool.and_eq_true] at h
  obtain ⟨⟨⟨⟨⟨hca, hpo⟩, hfo⟩, hpr⟩, hinp⟩, hout⟩ := h
  simp [Job.model_validate, Job.model_dump, getKey, List.lookup, Option.or,
    hca, hpo, hfo, hinp, hout]
  rw [optProgress_enc pr hpr]
  simp

theorem voice_roundtrip (v : Voice) (h : v.Valid = true) :
    Voice.model_validate (Voice.model_dump v) = .ok v := by
  obtain ⟨id, nm, au, g, du, ca⟩ := v
  simp only [Voice.Valid, Bool.and_eq_true, decide_eq_true_eq] at h
  simp [Voice.model_validate, Voice.model_dump, getKey, List.lookup, Option.or,
    h.1, reqGender_ok g h.2]

theorem user_roundtrip (u : User) :
    User.model_validate (User.model_dump u) = .ok u := by
  obtain ⟨id, nm, em, ev, im, pl⟩ := u
  simp [User.model_validate, User.model_dump, getKey, List.lookup, Option.or]

theorem usageData_roundtrip (d : UsageData) (h : d.Valid = true) :
    UsageData.model_validate (UsageData.model_dump d) = .ok d := by
  obtain ⟨uc, pc, te, cp, ps, pe⟩ := d
  simp only [UsageData.Valid, Bool.and_eq_true] at h
  simp [UsageData.model_validate, UsageData.model_dump, getKey, List.lookup,
    Option.or, h.1, h.2]

/-! ### Inversion of successful validation -/

/-- A successful enum decode names exactly the accepted wire string. -/
theorem reqEnum_ok_inv {α : Type} {fw : String → Option α} {o : Option Json}
    {a : α} (h : reqEnum fw o = .ok a) : ∃ s, o = some (.str s) ∧ fw s = some a := by
  cases o with
  | none => simp [reqEnum] at h
  | some v =>
      cases v with
      | str s =>
          refine ⟨s, rfl, ?_⟩
          cases hw : fw s with
          | none => simp [reqEnum, hw] at h
          | some b => simp [reqEnum, hw] at h; subst h; rfl
      | null => simp [reqEnum] at h
      | bool b => simp [reqEnum] at h
      | num q => simp [reqEnum] at h
      | arr xs => simp [reqEnum] at h
      | obj gs => simp [reqEnum] at h

/-- If `Job.model_validate` succeeds, every required field decoded
    successfully to the returned component. -/
theorem Job.validate_ok_fields (fs : List (String × Json)) (j : Job)
    (h : Job.model_validate (.obj fs) = .ok j) :
    reqStr (fs.lookup "id") = .ok j.id ∧
    reqEnum JobType.fromWire (fs.lookup "type") = .ok j.type ∧
    reqStr (getKey fs "userId" "user_id") = .ok j.user_id ∧
    reqEnum JobState.fromWire (fs.lookup "state") = .ok j.state ∧
    reqDatetime (getKey fs "createdAt" "created_at") = .ok j.created_at := by
  simp only [Job.model_validate] at h
  obtain ⟨a1, e1, h⟩ := bind_ok_inv h
  obtain ⟨a2, e2, h⟩ := bind_ok_inv h
  obtain ⟨a3, e3, h⟩ := bind_ok_inv h
  obtain ⟨a4, e4, h⟩ := bind_ok_inv h
  obtain ⟨a5, e5, h⟩ := bind_ok_inv h
  obtain ⟨a6, e6, h⟩ := bind_ok_inv h
  obtain ⟨a7, e7, h⟩ := bind_ok_inv h
  obtain ⟨a8, e8, h⟩ := bind_ok_inv h
  obtain ⟨a9, e9, h⟩ := bind_ok_inv h
  obtain ⟨a10, e10, h⟩ := bind_ok_inv h
  obtain ⟨a11, e11, h⟩ := bind_ok_inv h
  obtain ⟨a12, e12, h⟩ := bind_ok_inv h
  injection h with hj
  subst hj
  exact ⟨e1, e2, e3, e4, e8⟩

/-- If `Voice.model_validate` succeeds, the gender literal decoded
    successfully to the returned component. -/
theorem Voice.validate_ok_gender (fs : List (String × Json)) (v : Voice)
    (h : Voice.model_validate (.obj fs) = .ok v) :
    reqGender (fs.lookup "gender") = .ok v.gender := by
  simp only [Voice.model_validate] at h
  obtain ⟨a1, e1, h⟩ := bind_ok_inv h
  obtain ⟨a2, e2, h⟩ := bind_ok_inv h
  obtain ⟨a3, e3, h⟩ := bind_ok_inv h
  obtain ⟨a4, e4, h⟩ := bind_ok_inv h
  obtain ⟨a5, e5, h⟩ := bind_ok_inv h
  obtain ⟨a6, e6, h⟩ := bind_ok_inv h
  injection h with hj
  subst hj
  exact e4

/-- A `None` timeout never triggers. -/
theorem timeoutTriggered_none (x : ℚ) : timeoutTriggered none x = false := rfl

/-- A `0` timeout is falsy in Python, so it never triggers either. -/
theorem timeoutTriggered_zero (x : ℚ) : timeoutTriggered (some 0) x = false := by
  simp [timeoutTriggered]

/-- When the check triggers, the timeout was nonzero and strictly exceeded. -/
theorem timeoutTriggered_true_iff (t x : ℚ) :
    timeoutTriggered (some t) x = true ↔ t ≠ 0 ∧ t < x := by
  simp [timeoutTriggered]

/-- The loop behaves identically under `timeout=0` and `timeout=None`. -/
theorem waitAux_timeout_zero (env : PollEnv) (pi : ℚ) :
    ∀ fuel n s, waitAux env pi (some 0) fuel n s = waitAux env pi none fuel n s := by
  intro fuel
  induction fuel with
  | zero => intro n s; rfl
  | succ k ih =>
      intro n s
      simp only [waitAux, timeoutTriggered_zero, timeoutTriggered_none]
      by_cases h : (env.jobs n).is_complete = true <;> simp [h, ih]

/-- With `timeout=None` the loop never raises `TimeoutError`. -/
theorem waitAux_none_not_timedOut (env : PollEnv) (pi : ℚ) :
    ∀ fuel n s p, waitAux env pi none fuel n s ≠ .timedOut p := by
  intro fuel
  induction fuel with
  | zero => intro n s p h; exact WaitResult.noConfusion h
  | succ k ih =>
      intro n s p
      simp only [waitAux, timeoutTriggered_none]
      by_cases h : (env.jobs n).is_complete = true <;> simp [h]
      exact ih (n + 1) _ p

/-- If the loop raises `TimeoutError`, the timeout was nonzero, at least one
    poll was made, and the elapsed clock at the raising check strictly
    exceeded the timeout. -/
theorem waitAux_timedOut_inv (env : PollEnv) (pi t : ℚ) :
    ∀ fuel n s p, waitAux env pi (some t) fuel n s = .timedOut p →
      t ≠ 0 ∧ n + 1 ≤ p ∧ t < env.clock (p - 1) := by
  intro fuel
  induction fuel with
  | zero => intro n s p h; exact absurd h (by simp [waitAux])
  | succ k ih =>
      intro n s p h
      simp only [waitAux] at h
      by_cases hc : (env.jobs n).is_complete = true
      · rw [if_pos hc] at h
        exact absurd h (by simp)
      · rw [if_neg hc] at h
        by_cases ht : timeoutTriggered (some t) (env.clock n) = true
        · rw [if_pos ht] at h
          obtain ⟨h1, h2⟩ := (timeoutTriggered_true_iff t (env.clock n)).mp ht
          injection h with hp
          subst hp
          exact ⟨h1, le_refl _, by simpa using h2⟩
        · rw [if_neg ht] at h
          obtain ⟨h1, h2, h3⟩ := ih (n + 1) _ p h
          exact ⟨h1, by omega, h3⟩

/-- Claim C6: `Job.is_complete` is true exactly for the states completed,
    failed and cancelled, false for queued and active; `Job.is_successful`
    is true exactly for completed. -/
theorem claim_C6_job_predicates (j : Job) :
    (j.is_complete = true ↔
      (j.state = .COMPLETED ∨ j.state = .FAILED ∨ j.state = .CANCELLED)) ∧
    (j.is_complete = false ↔ (j.state = .QUEUED ∨ j.state = .ACTIVE)) ∧
    (j.is_successful = true ↔ j.state = .COMPLETED) := by
  obtain ⟨_, _, _, st, _, _, _, _, _, _, _, _⟩ := j
  cases st <;> simp [Job.is_complete, Job.is_successful, List.contains]

/-- Claim C7: a preset target voice serializes to
    `mode = preset, presetVoiceId = id`, an uploaded one to
    `mode = upload, targetAudioUrl = url`, in both `clone_voice` and
    `synthesize_voice`, and the two discriminated keys are never both
    present. -/
theorem claim_C7_target_voice_serialization (sau txt : String) (tv : TargetVoice) :
    (clone_voice_request sau tv).body =
      some (.obj [("sourceAudioUrl", .str sau), ("targetVoice", specTargetVoice tv)]) ∧
    (synthesize_voice_request txt tv).body =
      some (.obj [("text", .str txt), ("targetVoice", specTargetVoice tv)]) ∧
    ((specTargetVoice tv).getField "presetVoiceId" = none ∨
      (specTargetVoice tv).getField "targetAudioUrl" = none) := by
  cases tv <;>
    simp [clone_voice_request, synthesize_voice_request, specTargetVoice,
      Json.getField, List.lookup]

/-- Claim C5: `dub` produces a POST to `/dub` whose body is exactly the
    `type` / `url` / `toLanguage` / `disableWatermark` object, with enum
    arguments normalized to their wire strings and raw strings passed
    through, and parses the returned `Job` from the response's `job`
    field. -/
theorem claim_C5_dub_request (source : DubSource ⊕ String) (url : String)
    (language : Language ⊕ String) (dw : Bool) :
    dub_request source url language dw =
      { method := "POST", path := "/dub",
        body := some (.obj [("type", .str (wireSource source)),
                            ("url", .str url),
                            ("toLanguage", .str (wireLanguage language)),
                            ("disableWatermark", .bool dw)]),
        params := [] } ∧
    (∀ data j, data.getField "job" = some j →
      dub_result data = Job.model_validate j) := by
  constructor
  · cases source <;> cases language <;> rfl
  · intro data j h
    simp [dub_result, h]

/-- Witness for claim C5 at `source = youtube` (enum), `language = "es-ES"`
    (raw string) and a concrete response envelope. -/
theorem claim_C5_dub_request_witness :
    dub_request (.inl DubSource.YOUTUBE) "https://youtube.com/watch"
        (.inr "es-ES") false =
      { method := "POST", path := "/dub",
        body := some (.obj [("type", .str "youtube"),
                            ("url", .str "https://youtube.com/watch"),
                            ("toLanguage", .str "es-ES"),
                            ("disableWatermark", .bool false)]),
        params := [] } ∧
    dub_result jobRespSample = Job.model_validate Json.null := by
  refine ⟨?_, ?_⟩
  · exact (claim_C5_dub_request (.inl DubSource.YOUTUBE)
      "https://youtube.com/watch" (.inr "es-ES") false).1
  · exact (claim_C5_dub_request (.inl DubSource.YOUTUBE)
      "https://youtube.com/watch" (.inr "es-ES") false).2 jobRespSample .null rfl

/-- Claim C4: a job already complete on the first poll is returned after
    exactly one poll and zero sleeping, for any poll interval and timeout. -/
theorem claim_C4_wait_immediate (env : PollEnv) (pi : ℚ) (timeout : Option ℚ)
    (fuel : ℕ) (hfuel : 1 ≤ fuel) (hdone : (env.jobs 0).is_complete = true) :
    wait_for_job env pi timeout fuel = .completed (env.jobs 0) 1 0 := by
  cases fuel with
  | zero => omega
  | succ n => simp [wait_for_job, waitAux, hdone]

/-- Witness for claim C4 on a concrete immediately-complete environment. -/
theorem claim_C4_wait_immediate_witness :
    wait_for_job envDone 2 (some 1) 1 = .completed (envDone.jobs 0) 1 0 :=
  claim_C4_wait_immediate envDone 2 (some 1) 1 (by norm_num) (by decide)

/-- Claim C3 (code bug): passing `timeout=0` — a finite timeout — never
    raises `TimeoutError`: `if timeout and ...` treats `0` as falsy, so after
    five polls with the elapsed clock already past the timeout the loop is
    still polling. -/
theorem claim_C3_zero_timeout_never_raises :
    wait_for_job envNever 2 (some 0) 5 = .running ∧ (0 : ℚ) < envNever.clock 0 := by
  constructor
  · rfl
  · norm_num [envNever, clockTable]

/-- Counterexample to claim C10 as stated: a strictly negative timeout also
    raises `TimeoutError` (after the very first poll), so `TimeoutError` is
    not confined to strictly positive timeouts. -/
theorem claim_C10_counterexample :
    wait_for_job envNever 2 (some (-1)) 3 = .timedOut 1 ∧ ¬ (0 : ℚ) < -1 := by
  constructor
  · rfl
  · norm_num

/-- Claim C1 (code bug): a 400 response whose body parses to JSON that is
    not an object makes `_handle_error` itself crash with `AttributeError`
    (`data.get("data")` on a non-`dict`) instead of raising
    `ValidationError`. -/
theorem claim_C1_400_nonobject_crashes :
    handle_error resp400str = .crashed := rfl

/-- Claim C10 as amended: `timeout=0` is treated the same as `None` — the
    elapsed-time check is skipped and the loop polls forever — so
    `TimeoutError` can only ever be raised for a nonzero timeout, and only
    when the elapsed time strictly exceeds it. -/
theorem claim_C10_timeout_semantics (env : PollEnv) (pi : ℚ) (fuel : ℕ) :
    wait_for_job env pi (some 0) fuel = wait_for_job env pi none fuel ∧
    (∀ p, wait_for_job env pi none fuel ≠ .timedOut p) ∧
    (∀ t p, wait_for_job env pi (some t) fuel = .timedOut p →
      t ≠ 0 ∧ 1 ≤ p ∧ t < env.clock (p - 1)) := by
  refine ⟨waitAux_timeout_zero env pi fuel 0 0,
    fun p => waitAux_none_not_timedOut env pi fuel 0 0 p,
    fun t p h => ?_⟩
  obtain ⟨h1, h2, h3⟩ := waitAux_timedOut_inv env pi t fuel 0 0 p h
  exact ⟨h1, by omega, h3⟩

/-- Witness for claim C10: a concrete run that raises `TimeoutError` after
    two polls under `timeout=1` indeed has a nonzero timeout strictly
    exceeded by the clock at the raising check. -/
theorem claim_C10_timeout_semantics_witness :
    (1 : ℚ) ≠ 0 ∧ 1 ≤ 2 ∧ (1 : ℚ) < envNever.clock (2 - 1) :=
  (claim_C10_timeout_semantics envNever 2 3).2.2 1 2 rfl

/-- Claim C2 as amended: for every error status, an unparseable error body
    makes the raised error's message the raw response text; the generic
    error carries no machine code, while the four specific kinds carry their
    fixed class codes; and the handler never itself crashes on a non-JSON
    body — but a 400 response whose body is JSON and not an object crashes
    the handler with `AttributeError`. -/
theorem claim_C2_malformed_body (r : Response)
    (h : r.json = none ∨ ∃ v, r.json = some v ∧ v.isObj = false) :
    (r.status_code = 401 → handle_error r = .raised (authenticationError (.str r.text))) ∧
    (r.status_code = 404 → handle_error r = .raised (notFoundError (.str r.text))) ∧
    (r.status_code = 429 → handle_error r = .raised (rateLimitError (.str r.text))) ∧
    (r.status_code = 400 → r.json = none →
      handle_error r = .raised (validationError (.str r.text) none)) ∧
    (r.status_code = 400 → ∀ v, r.json = some v → handle_error r = .crashed) ∧
    (r.status_code ≠ 400 → r.status_code ≠ 401 → r.status_code ≠ 404 →
      r.status_code ≠ 429 →
      handle_error r = .raised (SubformerError.base (.str r.text) (some r.status_code) none none)) := by
  obtain ⟨sc, text, json⟩ := r
  rcases h with hj | ⟨v, hj, hv⟩ <;> subst hj
  · refine ⟨?_, ?_, ?_, ?_, ?_, ?_⟩
    · intro h1; subst h1; rfl
    · intro h1; subst h1; rfl
    · intro h1; subst h1; rfl
    · intro h1 _; subst h1; rfl
    · intro _ w hw; exact absurd hw (by simp)
    · intro h1 h2 h3 h4
      simp [handle_error, h1, h2, h3, h4]
  · refine ⟨?_, ?_, ?_, ?_, ?_, ?_⟩
    · intro h1; subst h1; cases v <;> simp_all [handle_error, Json.isObj]
    · intro h1; subst h1; cases v <;> simp_all [handle_error, Json.isObj]
    · intro h1; subst h1; cases v <;> simp_all [handle_error, Json.isObj]
    · intro h1 hw; exact absurd hw (by simp)
    · intro h1 w hw; subst h1
      injection hw with hwv
      subst hwv
      cases v <;> simp_all [handle_error, Json.isObj]
    · intro h1 h2 h3 h4
      cases v <;> simp_all [handle_error, Json.isObj]

/-- Witness for claim C2 on a concrete non-JSON 500 response: the generic
    error is raised with the raw text and no machine code. -/
theorem claim_C2_malformed_body_witness :
    handle_error resp500 =
      .raised (SubformerError.base (.str "boom") (some 500) none none) :=
  (claim_C2_malformed_body resp500 (Or.inl rfl)).2.2.2.2.2
    (by decide) (by decide) (by decide) (by decide)

/-- Counterexample to claim C2 as stated: on a malformed (non-JSON) 401 body
    the raised error's machine code is the class's fixed `UNAUTHORIZED`, not
    absent; and a 400 response whose body is JSON but not an object crashes
    the handler instead of raising. -/
theorem claim_C2_counterexample :
    handle_error respAuthMalformed = .raised (authenticationError (.str "oops")) ∧
    (authenticationError (.str "oops")).code ≠ none ∧
    handle_error resp400arr = .crashed := by
  refine ⟨rfl, ?_, rfl⟩
  simp [authenticationError]

/-- Claim C8: deserializing a valid canonical JSON payload into a domain
    type (Job, Voice, User, UsageData) and re-serializing under the alias
    mapping yields every field with the same wire-visible value — the
    round trip is the identity on canonical payloads. -/
theorem claim_C8_roundtrip :
    (∀ j : Job, j.Valid = true →
      (Job.model_validate (Job.model_dump j)).map Job.model_dump =
        .ok (Job.model_dump j)) ∧
    (∀ v : Voice, v.Valid = true →
      (Voice.model_validate (Voice.model_dump v)).map Voice.model_dump =
        .ok (Voice.model_dump v)) ∧
    (∀ u : User,
      (User.model_validate (User.model_dump u)).map User.model_dump =
        .ok (User.model_dump u)) ∧
    (∀ d : UsageData, d.Valid = true →
      (UsageData.model_validate (UsageData.model_dump d)).map UsageData.model_dump =
        .ok (UsageData.model_dump d)) := by
  refine ⟨fun j h => ?_, fun v h => ?_, fun u => ?_, fun d h => ?_⟩
  · rw [job_roundtrip j h]; rfl
  · rw [voice_roundtrip v h]; rfl
  · rw [user_roundtrip u]; rfl
  · rw [usageData_roundtrip d h]; rfl

/-- Witness for claim C8 on concrete canonical values of each model. -/
theorem claim_C8_roundtrip_witness :
    (Job.model_validate (Job.model_dump jobCompleted)).map Job.model_dump =
      .ok (Job.model_dump jobCompleted) ∧
    (Voice.model_validate (Voice.model_dump voiceSample)).map Voice.model_dump =
      .ok (Voice.model_dump voiceSample) ∧
    (User.model_validate (User.model_dump userSample)).map User.model_dump =
      .ok (User.model_dump userSample) ∧
    (UsageData.model_validate (UsageData.model_dump usageSample)).map UsageData.model_dump =
      .ok (UsageData.model_dump usageSample) :=
  ⟨claim_C8_roundtrip.1 jobCompleted (by decide),
   claim_C8_roundtrip.2.1 voiceSample (by decide),
   claim_C8_roundtrip.2.2.1 userSample,
   claim_C8_roundtrip.2.2.2 usageSample (by decide)⟩

/-- Claim C9: model construction fails whenever a required field is missing
    (`id`, `userId`, `state`, `createdAt` for Job) or an enum/literal field
    holds an unrecognized value (JobState, JobType, Voice gender), and a
    successful validation never silently coerces: the accepted `state` wire
    string is exactly the one mapping to the returned member. -/
theorem claim_C9_strict_validation (fs : List (String × Json)) :
    (fs.lookup "id" = none → isErr (Job.model_validate (.obj fs)) = true) ∧
    (getKey fs "userId" "user_id" = none →
      isErr (Job.model_validate (.obj fs)) = true) ∧
    (fs.lookup "state" = none → isErr (Job.model_validate (.obj fs)) = true) ∧
    (getKey fs "createdAt" "created_at" = none →
      isErr (Job.model_validate (.obj fs)) = true) ∧
    (∀ s, fs.lookup "state" = some (.str s) → JobState.fromWire s = none →
      isErr (Job.model_validate (.obj fs)) = true) ∧
    (∀ s, fs.lookup "type" = some (.str s) → JobType.fromWire s = none →
      isErr (Job.model_validate (.obj fs)) = true) ∧
    (∀ g, fs.lookup "gender" = some (.str g) → g ≠ "male" → g ≠ "female" →
      isErr (Voice.model_validate (.obj fs)) = true) ∧
    (∀ j, Job.model_validate (.obj fs) = .ok j →
      ∃ s, fs.lookup "state" = some (.str s) ∧ JobState.fromWire s = some j.state) := by
  refine ⟨?_, ?_, ?_, ?_, ?_, ?_, ?_, ?_⟩
  · intro hm
    cases hv : Job.model_validate (.obj fs) with
    | error e => rfl
    | ok j =>
        exfalso
        have hx := (Job.validate_ok_fields fs j hv).1
        rw [hm] at hx
        simp [reqStr] at hx
  · intro hm
    cases hv : Job.model_validate (.obj fs) with
    | error e => rfl
    | ok j =>
        exfalso
        have hx := (Job.validate_ok_fields fs j hv).2.2.1
        rw [hm] at hx
        simp [reqStr] at hx
  · intro hm
    cases hv : Job.model_validate (.obj fs) with
    | error e => rfl
    | ok j =>
        exfalso
        have hx := (Job.validate_ok_fields fs j hv).2.2.2.1
        rw [hm] at hx
        simp [reqEnum] at hx
  · intro hm
    cases hv : Job.model_validate (.obj fs) with
    | error e => rfl
    | ok j =>
        exfalso
        have hx := (Job.validate_ok_fields fs j hv).2.2.2.2
        rw [hm] at hx
        simp [reqDatetime] at hx
  · intro s hs hw
    cases hv : Job.model_validate (.obj fs) with
    | error e => rfl
    | ok j =>
        exfalso
        have hx := (Job.validate_ok_fields fs j hv).2.2.2.1
        rw [hs] at hx
        simp [reqEnum, hw] at hx
  · intro s hs hw
    cases hv : Job.model_validate (.obj fs) with
    | error e => rfl
    | ok j =>
        exfalso
        have hx := (Job.validate_ok_fields fs j hv).2.1
        rw [hs] at hx
        simp [reqEnum, hw] at hx
  · intro g hg h1 h2
    cases hv : Voice.model_validate (.obj fs) with
    | error e => rfl
    | ok v =>
        exfalso
        have hx := Voice.validate_ok_gender fs v hv
        rw [hg] at hx
        simp [reqGender, h1, h2] at hx
  · intro j hv
    exact reqEnum_ok_inv ((Job.validate_ok_fields fs j hv).2.2.2.1)

/-- Witness for claim C9: an empty payload, an unknown job state and an
    unknown voice gender each fail validation. -/
theorem claim_C9_strict_validation_witness :
    isErr (Job.model_validate (.obj [])) = true ∧
    isErr (Job.model_validate (.obj [("state", .str "paused")])) = true ∧
    isErr (Voice.model_validate (.obj [("gender", .str "robot")])) = true := by
  refine ⟨?_, ?_, ?_⟩
  · exact (claim_C9_strict_validation []).1 rfl
  · exact (claim_C9_strict_validation [("state", .str "paused")]).2.2.2.2.1
      "paused" rfl (by decide)
  · exact (claim_C9_strict_validation [("gender", .str "robot")]).2.2.2.2.2.2.1
      "robot" rfl (by decide) (by decide)

end Subformer
